import Mathlib

/-!
Shallow embedding of the sonarr-extension-filter grab-event pipeline.

Sources embedded:
- app/extension_checker.py  (ExtensionChecker.__init__, check_files, is_extension_blocked)
- app/webhook_handler.py    (WebhookHandler._wait_for_torrent, process_grab_event, _get_queue_id)
- app/sonarr/api.py         (SonarrAPI.remove_from_queue)

External calls (HTTP requests to Sonarr and to the download client) are
modelled by an environment record fixing the response of each call; the
order of externally visible calls performed by one pipeline run is
recorded in an event trace.
-/

namespace SonarrFilter

/-! ## Python string primitives used by the source -/

/-- Embedding of Python str.lower() (ASCII case folding on each character). -/
def lower (s : String) : String := String.mk (s.data.map Char.toLower)

/-- Embedding of Python str.startswith('.') restricted to the one-dot use in
ExtensionChecker.__init__: true when the first character is a dot. -/
def starts_with_dot (s : String) : Bool :=
  match s.data with
  | [] => false
  | c :: _ => c == '.'

/-- Characters of l strictly after the last occurrence of c, or all of l when
c does not occur; helper for the rfind-based slicing in posixpath.splitext. -/
def after_last (c : Char) (l : List Char) : List Char :=
  (l.reverse.takeWhile (fun x => x != c)).reverse

/-- Embedding of the extension component of os.path.splitext (posixpath):
take the final path segment (after the last slash); the extension runs from
the last dot of that segment, provided some non-dot character of the segment
stands before that dot (leading dots of a file name never open an extension). -/
def splitext_ext (p : String) : String :=
  if ((after_last '/' p.data).dropWhile (fun x => x == '.')).contains '.' then
    String.mk ('.' :: after_last '.' (after_last '/' p.data))
  else ""

/-! ## ExtensionChecker (app/extension_checker.py) -/

/-- ExtensionChecker.__init__: ensure every configured extension starts with a
dot, then lower-case each one. -/
def normalize_blocked_extensions (exts : List String) : List String :=
  (exts.map fun ext => if starts_with_dot ext then ext else "." ++ ext).map lower

/-- ExtensionChecker.is_extension_blocked: the lowered splitext extension is a
member of the normalized blocked list. -/
def is_extension_blocked (blocked_extensions : List String) (filename : String) : Bool :=
  blocked_extensions.contains (lower (splitext_ext filename))

/-- ExtensionChecker.check_files: the files of the list whose lowered
splitext extension is in the blocked list, in input order. -/
def check_files (blocked_extensions : List String) (file_list : List String) : List String :=
  file_list.filter fun file_path => blocked_extensions.contains (lower (splitext_ext file_path))

/-! ## Data model -/

/-- One record of the Sonarr queue as read by _get_queue_id: the
item.get('downloadId', '') string and the item.get('id') value, which may be
missing. -/
structure QueueItem where
  downloadId : String
  id : Option Int
  deriving DecidableEq, Repr

/-- Response shape of DownloadClient.get_torrent_files on success: a dict
holding a (possibly empty) file list. -/
structure TorrentData where
  files : List String
  deriving DecidableEq, Repr

/-- One record of the Sonarr history feed as read on the fallback path:
item.get('eventType') and item.get('id'). -/
structure HistoryItem where
  eventType : Option String
  id : Option Int
  deriving DecidableEq, Repr

/-- Fields of the webhook payload read by process_grab_event, after the
defaulted dictionary lookups of lines 83-85. -/
structure Payload where
  series_title : String
  release_title : String
  downloadId : String
  series_id : Option Int
  deriving DecidableEq, Repr

/-- Configuration surface read by the pipeline: the filtering action string
and the raw blocked-extension list. -/
structure Config where
  action : String
  blocked_extensions : List String
  deriving DecidableEq, Repr

/-- Result dictionary returned by process_grab_event; keys absent from a
given return site are none. -/
structure PResult where
  status : String
  message : String
  blocked_files : Option (List String) := none
  removed_from : Option String := none
  blocklisted : Option Bool := none
  deriving DecidableEq, Repr

/-- Externally visible calls of one pipeline run, in execution order. -/
inductive Event where
  | getQueue
  | sleep (seconds : Nat)
  | getManifest (download_id : String)
  | removeFromQueue (queue_id : Int) (remove_from_client : Bool) (blocklist : Bool)
  | clientRemove (download_id : String) (delete_files : Bool)
  | getHistory (download_id : String)
  | blocklistHistory (history_id : Option Int)
  deriving DecidableEq, Repr

/-- Externally visible calls of one SonarrAPI.remove_from_queue invocation. -/
inductive SonarrEvent where
  | deleteQueueItem (queue_id : Int) (remove_from_client : Bool) (blocklist : Bool)
  | sleepOne
  | getBlocklist
  deriving DecidableEq, Repr

/-- Responses of the external services during one pipeline run.  An
Except.error value stands for an exception raised by that call; calls whose
source catches internally and degrades to a default are given the already
degraded value (get_queue yields a list, remove_from_queue yields a Bool). -/
structure Env where
  queue : List QueueItem
  manifest : Nat → Except String (Option TorrentData)
  sonarr_delete : Except String Unit
  sonarr_blocklist_records : List Int
  client_remove : Except String Bool
  history : List HistoryItem
  blocklist_by_history : Option Int → Bool

/-! ## SonarrAPI.remove_from_queue (app/sonarr/api.py lines 42-95) -/

/-- Discriminator for a successful Except value. -/
def except_ok (r : Except String Unit) : Bool :=
  match r with
  | Except.ok _ => true
  | Except.error _ => false

/-- SonarrAPI.remove_from_queue: DELETE the queue item; an exception from the
request or raise_for_status yields false; otherwise, when blocklisting was
requested, sleep one second and fetch the blocklist (logged only), then
return true unconditionally. -/
def remove_from_queue (delete_result : Except String Unit) (blocklist_records : List Int)
    (queue_id : Int) (remove_from_client : Bool) (blocklist : Bool) :
    Bool × List SonarrEvent :=
  match delete_result with
  | Except.error _ => (false, [SonarrEvent.deleteQueueItem queue_id remove_from_client blocklist])
  | Except.ok _ =>
    if blocklist then
      (true, [SonarrEvent.deleteQueueItem queue_id remove_from_client blocklist,
              SonarrEvent.sleepOne, SonarrEvent.getBlocklist])
    else
      (true, [SonarrEvent.deleteQueueItem queue_id remove_from_client blocklist])

/-! ## WebhookHandler (app/webhook_handler.py) -/

/-- WebhookHandler._get_queue_id: scan the queue snapshot in order and return
item.get('id') of the first entry whose download identifier equals the given
one case-insensitively; None when no entry matches. -/
def get_queue_id (queue_items : List QueueItem) (download_id : String) : Option Int :=
  match queue_items with
  | [] => none
  | item :: rest =>
    if lower item.downloadId == lower download_id then item.id
    else get_queue_id rest download_id

/-- Test that the first list is an initial segment of the second. -/
def chars_start_with : List Char → List Char → Bool
  | [], _ => true
  | _ :: _, [] => false
  | a :: as, b :: bs => a == b && chars_start_with as bs

/-- Embedding of the Python substring operator needle in hay on char lists. -/
def chars_contain (needle : List Char) : List Char → Bool
  | [] => needle.isEmpty
  | c :: rest => chars_start_with needle (c :: rest) || chars_contain needle rest

/-- Blocklist policy of the configuration: the substring test
'blocklist' in action.lower() of lines 135, 161 and 207. -/
def is_blocklist_action (action : String) : Bool :=
  chars_contain "blocklist".data (lower action).data

/-- Loop body of WebhookHandler._wait_for_torrent over the remaining attempt
numbers: sleep 2^(attempt+1) seconds, call get_torrent_files, and stop as
soon as the response is present with a non-empty file list. -/
def wait_loop (download_id : String) (manifest : Nat → Except String (Option TorrentData)) :
    List Nat → Except String (Option TorrentData) × List Event
  | [] => (Except.ok none, [])
  | attempt :: rest =>
    match manifest attempt with
    | Except.error e =>
      (Except.error e, [Event.sleep (2 ^ (attempt + 1)), Event.getManifest download_id])
    | Except.ok (some torrent_data) =>
      if torrent_data.files.isEmpty then
        let next := wait_loop download_id manifest rest
        (next.1, [Event.sleep (2 ^ (attempt + 1)), Event.getManifest download_id] ++ next.2)
      else
        (Except.ok (some torrent_data),
         [Event.sleep (2 ^ (attempt + 1)), Event.getManifest download_id])
    | Except.ok none =>
      let next := wait_loop download_id manifest rest
      (next.1, [Event.sleep (2 ^ (attempt + 1)), Event.getManifest download_id] ++ next.2)

/-- WebhookHandler._wait_for_torrent with its default bound of 3 attempts. -/
def wait_for_torrent (download_id : String)
    (manifest : Nat → Except String (Option TorrentData)) (max_retries : Nat := 3) :
    Except String (Option TorrentData) × List Event :=
  wait_loop download_id manifest (List.range max_retries)

/-- Fallback of lines 152-203: remove the torrent directly from the download
client inside its own try block; on success, when the blocklist policy is
enabled, fetch history (modelled from the spec: SonarrAPI.get_history is
called by the handler but absent from app/sonarr/api.py; per section 4.3 it
returns the history entries for the download identifier), pick the first
entry of event type grabbed, and blocklist it by history id (modelled from
the spec: SonarrAPI.blocklist_by_history_id is likewise absent; per section
4.3 it reports success as a boolean). -/
def client_fallback (cfg : Config) (env : Env) (download_id : String)
    (blocked_files : List String) : Except String PResult × List Event :=
  match env.client_remove with
  | Except.error e =>
    (Except.ok { status := "error",
                 message := "Error removing from download client: " ++ e },
     [Event.clientRemove download_id true])
  | Except.ok false =>
    (Except.ok { status := "error", message := "Failed to remove from download client" },
     [Event.clientRemove download_id true])
  | Except.ok true =>
    if is_blocklist_action cfg.action then
      let found :=
        if env.history.isEmpty then (false, [])
        else
          match env.history.find? (fun item => item.eventType == some "grabbed") with
          | some grabbed_item =>
            (env.blocklist_by_history grabbed_item.id,
             [Event.blocklistHistory grabbed_item.id])
          | none => (false, [])
      (Except.ok { status := "removed",
                   message := "Removed download with " ++ toString blocked_files.length ++
                     " blocked file(s) directly from client",
                   blocked_files := some blocked_files,
                   removed_from := some "download_client",
                   blocklisted := some found.1 },
       Event.clientRemove download_id true :: Event.getHistory download_id :: found.2)
    else
      (Except.ok { status := "removed",
                   message := "Removed download with " ++ toString blocked_files.length ++
                     " blocked file(s) directly from client",
                   blocked_files := some blocked_files,
                   removed_from := some "download_client",
                   blocklisted := some false },
       [Event.clientRemove download_id true])

/-- Lines 126-213: with a non-empty blocked set, try queue removal first when
a truthy queue id was captured (Python: None and 0 are both falsy), and fall
through to the direct client fallback whenever removed_from_queue stays
false. -/
def handle_blocked (cfg : Config) (env : Env) (download_id : String)
    (queue_id : Option Int) (blocked_files : List String) :
    Except String PResult × List Event :=
  match queue_id with
  | some qid =>
    if qid != 0 then
      let blocklist := is_blocklist_action cfg.action
      let success :=
        (remove_from_queue env.sonarr_delete env.sonarr_blocklist_records qid true blocklist).1
      if success then
        (Except.ok { status := "removed",
                     message := "Removed download with " ++ toString blocked_files.length ++
                       " blocked file(s)",
                     blocked_files := some blocked_files,
                     blocklisted := some blocklist },
         [Event.removeFromQueue qid true blocklist])
      else
        let next := client_fallback cfg env download_id blocked_files
        (next.1, Event.removeFromQueue qid true blocklist :: next.2)
    else
      client_fallback cfg env download_id blocked_files
  | none => client_fallback cfg env download_id blocked_files

/-- Lines 116-219: run the extension checker on the retrieved manifest and
either finish clean or enter the removal branches. -/
def handle_manifest (cfg : Config) (env : Env) (download_id : String)
    (queue_id : Option Int) (torrent_data : TorrentData) :
    Except String PResult × List Event :=
  let blocked_files :=
    check_files (normalize_blocked_extensions cfg.blocked_extensions) torrent_data.files
  if blocked_files.isEmpty then
    (Except.ok { status := "clean", message := "No blocked extensions found" }, [])
  else
    handle_blocked cfg env download_id queue_id blocked_files

/-- Body of process_grab_event inside the outer try of line 81: validate the
download identifier, capture the queue id from one queue query, wait for the
manifest, then dispatch; Except.error carries an uncaught exception. -/
def process_grab_event_inner (cfg : Config) (env : Env) (payload : Payload) :
    Except String PResult × List Event :=
  if payload.downloadId == "" then
    (Except.ok { status := "warning", message := "No download ID provided" }, [])
  else
    match wait_for_torrent payload.downloadId env.manifest with
    | (Except.error e, wait_evs) => (Except.error e, Event.getQueue :: wait_evs)
    | (Except.ok none, wait_evs) =>
      (Except.ok { status := "warning", message := "Could not retrieve torrent data" },
       Event.getQueue :: wait_evs)
    | (Except.ok (some torrent_data), wait_evs) =>
      let handled := handle_manifest cfg env payload.downloadId
        (get_queue_id env.queue payload.downloadId) torrent_data
      (handled.1, Event.getQueue :: (wait_evs ++ handled.2))

/-- Outer except of lines 221-226: an uncaught exception becomes a terminal
error result carrying the description of the fault. -/
def except_wrap (r : Except String PResult) : PResult :=
  match r with
  | Except.ok res => res
  | Except.error e => { status := "error", message := e }

/-- WebhookHandler.process_grab_event: the inner body under the outer
exception boundary, together with the call trace. -/
def process_grab_event (cfg : Config) (env : Env) (payload : Payload) :
    PResult × List Event :=
  (except_wrap (process_grab_event_inner cfg env payload).1,
   (process_grab_event_inner cfg env payload).2)

/-! ## Trace observations -/

/-- Discriminator for manifest-fetch events. -/
def is_getManifest (e : Event) : Bool :=
  match e with
  | Event.getManifest _ => true
  | _ => false

/-- Number of get_torrent_files calls recorded in a trace. -/
def count_getManifest (evs : List Event) : Nat := evs.countP is_getManifest

/-- Events that can only be emitted after the manifest wait has finished. -/
def post_wait_event (e : Event) : Bool :=
  match e with
  | Event.removeFromQueue _ _ _ => true
  | Event.clientRemove _ _ => true
  | Event.getHistory _ => true
  | Event.blocklistHistory _ => true
  | _ => false

/-- Expected call pattern of n manifest-wait attempts: before the k-th call
(k counted from 0) a sleep of 2^(k+1) seconds, so 2s, 4s, 8s. -/
def backoff_trace (download_id : String) : Nat → List Event
  | 0 => []
  | n + 1 => backoff_trace download_id n ++
      [Event.sleep (2 ^ (n + 1)), Event.getManifest download_id]

/-! ## Concrete fixtures -/

/-- Payload of one grab notification used by the concrete runs. -/
def sample_payload : Payload :=
  { series_title := "Show", release_title := "Show.S01E01.1080p",
    downloadId := "abc123", series_id := some 11 }

/-- Configuration whose action string enables the blocklist policy. -/
def blocklist_config : Config :=
  { action := "remove_and_blocklist", blocked_extensions := ["exe"] }

/-- Configuration whose action string does not mention blocklisting. -/
def remove_config : Config :=
  { action := "remove", blocked_extensions := ["exe"] }

/-- Happy-path environment: the queue holds the download under an upper-case
hash, the manifest is served at once, every external call succeeds. -/
def base_env : Env :=
  { queue := [{ downloadId := "ABC123", id := some 42 }],
    manifest := fun _ => Except.ok (some { files := ["show.S01E01.mkv", "show.S01E01.exe"] }),
    sonarr_delete := Except.ok (),
    sonarr_blocklist_records := [],
    client_remove := Except.ok true,
    history := [],
    blocklist_by_history := fun _ => false }

/-- Environment in which the queue DELETE raises, so remove_from_queue
reports failure while the direct client removal succeeds. -/
def env_queue_fail : Env := { base_env with sonarr_delete := Except.error "HTTP 404" }

/-- Environment of the fallback path: no queue entry, a grabbed history
record, and a blocklist-by-history call that reports failure. -/
def env_fallback : Env :=
  { base_env with
    queue := [],
    history := [{ eventType := some "grabbed", id := some 7 }] }

/-- Fallback environment whose blocklist-by-history call reports success. -/
def env_fallback_ok : Env := { env_fallback with blocklist_by_history := fun _ => true }

/-- Environment whose download client never knows the identifier. -/
def env_manifest_absent : Env := { base_env with manifest := fun _ => Except.ok none }

/-- Environment whose download client has no record on attempts 1 and 3 but
answers attempt 2 with a manifest whose file list is still empty, so no
attempt ever yields a usable manifest. -/
def env_manifest_not_ready : Env :=
  { base_env with
    manifest := fun n =>
      if n == 1 then Except.ok (some { files := [] }) else Except.ok none }

/-- Environment that serves the manifest only on the third attempt. -/
def env_manifest_third : Env :=
  { base_env with
    manifest := fun n =>
      if n == 2 then Except.ok (some { files := ["show.S01E01.mkv", "show.S01E01.exe"] })
      else Except.ok none }

/-- Environment whose manifest call raises a transport fault. -/
def env_fault : Env := { base_env with manifest := fun _ => Except.error "connection refused" }

/-! ## Helper lemmas -/

theorem starts_with_dot_ne_nil {e : String} (h : starts_with_dot e = true) : e.data ≠ [] := by
  intro hc
  unfold starts_with_dot at h
  rw [hc] at h
  exact Bool.noConfusion h

theorem lower_eq_empty {s : String} (h : lower s = "") : s.data = [] := by
  have hd := congrArg String.data h
  simpa [lower] using hd

theorem data_dot_append (e : String) : ("." ++ e).data = '.' :: e.data := by
  cases e
  rfl

theorem empty_not_mem_normalize (B : List String) :
    "" ∉ normalize_blocked_extensions B := by
  intro hmem
  unfold normalize_blocked_extensions at hmem
  rw [List.mem_map] at hmem
  obtain ⟨x, hx, hlx⟩ := hmem
  rw [List.mem_map] at hx
  obtain ⟨e, -, hxe⟩ := hx
  subst hxe
  by_cases hd : starts_with_dot e
  · rw [if_pos hd] at hlx
    exact starts_with_dot_ne_nil hd (lower_eq_empty hlx)
  · rw [if_neg hd] at hlx
    have := lower_eq_empty hlx
    rw [data_dot_append] at this
    exact List.noConfusion this

theorem splitext_of_no_dot_segment {p : String}
    (h : ('.' : Char) ∉ after_last '/' p.data) : splitext_ext p = "" := by
  unfold splitext_ext
  rw [if_neg]
  intro hc
  exact h ((List.dropWhile_sublist _).subset (List.elem_iff.mp hc))

theorem not_blocked_of_no_dot_segment {B M : List String} {p : String}
    (h : ('.' : Char) ∉ after_last '/' p.data) :
    p ∉ check_files (normalize_blocked_extensions B) M := by
  intro hmem
  unfold check_files at hmem
  rw [List.mem_filter] at hmem
  obtain ⟨-, hp⟩ := hmem
  rw [splitext_of_no_dot_segment h] at hp
  exact empty_not_mem_normalize B (List.elem_iff.mp hp)

theorem isEmpty_false_of_ne_nil {α : Type} {l : List α} (h : l ≠ []) : l.isEmpty = false :=
  List.isEmpty_eq_false.mpr h

theorem find_some_not_nil {α : Type} {l : List α} {p : α → Bool} {g : α}
    (h : l.find? p = some g) : l.isEmpty = false := by
  cases l
  · simp at h
  · rfl

theorem wait_no_usable (d : String) (m : Nat → Except String (Option TorrentData))
    (hA : ∀ i, i < 3 → m i = Except.ok none ∨
      ∃ tde, m i = Except.ok (some tde) ∧ tde.files = []) :
    wait_for_torrent d m = (Except.ok none, backoff_trace d 3) := by
  show wait_loop d m [0, 1, 2] = _
  rcases hA 0 (by norm_num) with h0 | ⟨t0, h0, hf0⟩ <;>
    rcases hA 1 (by norm_num) with h1 | ⟨t1, h1, hf1⟩ <;>
      rcases hA 2 (by norm_num) with h2 | ⟨t2, h2, hf2⟩ <;>
        simp_all [wait_loop, backoff_trace]

theorem wait_third_attempt (d : String) (m : Nat → Except String (Option TorrentData))
    (td : TorrentData) (h0 : m 0 = Except.ok none) (h1 : m 1 = Except.ok none)
    (h2 : m 2 = Except.ok (some td)) (hne : td.files ≠ []) :
    wait_for_torrent d m = (Except.ok (some td), backoff_trace d 3) := by
  show wait_loop d m [0, 1, 2] = _
  simp [wait_loop, h0, h1, h2, isEmpty_false_of_ne_nil hne, backoff_trace]

theorem wait_for_torrent_shape (d : String) (m : Nat → Except String (Option TorrentData)) :
    ∃ n, 1 ≤ n ∧ n ≤ 3 ∧ (wait_for_torrent d m).2 = backoff_trace d n := by
  show ∃ n, 1 ≤ n ∧ n ≤ 3 ∧ (wait_loop d m [0, 1, 2]).2 = backoff_trace d n
  rcases hm0 : m 0 with f0 | td0
  · exact ⟨1, by norm_num, by norm_num, by simp [wait_loop, hm0, backoff_trace]⟩
  rcases td0 with _ | t0
  case ok.some =>
    cases hE0 : t0.files.isEmpty
    · exact ⟨1, by norm_num, by norm_num, by simp [wait_loop, hm0, hE0, backoff_trace]⟩
    · rcases hm1 : m 1 with f1 | td1
      · exact ⟨2, by norm_num, by norm_num, by simp [wait_loop, hm0, hE0, hm1, backoff_trace]⟩
      rcases td1 with _ | t1
      case ok.some =>
        cases hE1 : t1.files.isEmpty
        · exact ⟨2, by norm_num, by norm_num, by simp [wait_loop, hm0, hE0, hm1, hE1, backoff_trace]⟩
        · exact ⟨3, by norm_num, by norm_num, by
            rcases hm2 : m 2 with f2 | td2
            · simp [wait_loop, hm0, hE0, hm1, hE1, hm2, backoff_trace]
            rcases td2 with _ | t2
            case ok.some =>
              cases hE2 : t2.files.isEmpty <;>
                simp [wait_loop, hm0, hE0, hm1, hE1, hm2, hE2, backoff_trace]
            case ok.none => simp [wait_loop, hm0, hE0, hm1, hE1, hm2, backoff_trace]⟩
      case ok.none =>
        exact ⟨3, by norm_num, by norm_num, by
          rcases hm2 : m 2 with f2 | td2
          · simp [wait_loop, hm0, hE0, hm1, hm2, backoff_trace]
          rcases td2 with _ | t2
          case ok.some =>
            cases hE2 : t2.files.isEmpty <;>
              simp [wait_loop, hm0, hE0, hm1, hm2, hE2, backoff_trace]
          case ok.none => simp [wait_loop, hm0, hE0, hm1, hm2, backoff_trace]⟩
  case ok.none =>
    rcases hm1 : m 1 with f1 | td1
    · exact ⟨2, by norm_num, by norm_num, by simp [wait_loop, hm0, hm1, backoff_trace]⟩
    rcases td1 with _ | t1
    case ok.some =>
      cases hE1 : t1.files.isEmpty
      · exact ⟨2, by norm_num, by norm_num, by simp [wait_loop, hm0, hm1, hE1, backoff_trace]⟩
      · exact ⟨3, by norm_num, by norm_num, by
          rcases hm2 : m 2 with f2 | td2
          · simp [wait_loop, hm0, hm1, hE1, hm2, backoff_trace]
          rcases td2 with _ | t2
          case ok.some =>
            cases hE2 : t2.files.isEmpty <;>
              simp [wait_loop, hm0, hm1, hE1, hm2, hE2, backoff_trace]
          case ok.none => simp [wait_loop, hm0, hm1, hE1, hm2, backoff_trace]⟩
    case ok.none =>
      exact ⟨3, by norm_num, by norm_num, by
        rcases hm2 : m 2 with f2 | td2
        · simp [wait_loop, hm0, hm1, hm2, backoff_trace]
        rcases td2 with _ | t2
        case ok.some =>
          cases hE2 : t2.files.isEmpty <;>
            simp [wait_loop, hm0, hm1, hm2, hE2, backoff_trace]
        case ok.none => simp [wait_loop, hm0, hm1, hm2, backoff_trace]⟩

theorem wait_loop_events (d : String) (m : Nat → Except String (Option TorrentData))
    (attempts : List Nat) :
    ∀ e ∈ (wait_loop d m attempts).2, (∃ s, e = Event.sleep s) ∨ e = Event.getManifest d := by
  induction attempts with
  | nil => intro e he; simp [wait_loop] at he
  | cons a rest ih =>
    intro e he
    rcases hm : m a with f | td
    · simp [wait_loop, hm] at he
      rcases he with rfl | rfl
      exacts [Or.inl ⟨_, rfl⟩, Or.inr rfl]
    rcases td with _ | t
    case ok.some =>
      cases hE : t.files.isEmpty
      · simp [wait_loop, hm, hE] at he
        rcases he with rfl | rfl
        exacts [Or.inl ⟨_, rfl⟩, Or.inr rfl]
      · simp [wait_loop, hm, hE] at he
        rcases he with rfl | rfl | hmem
        exacts [Or.inl ⟨_, rfl⟩, Or.inr rfl, ih e hmem]
    case ok.none =>
      simp [wait_loop, hm] at he
      rcases he with rfl | rfl | hmem
      exacts [Or.inl ⟨_, rfl⟩, Or.inr rfl, ih e hmem]

theorem client_fallback_kinds (cfg : Config) (env : Env) (d : String) (bf : List String) :
    ∀ e ∈ (client_fallback cfg env d bf).2,
      post_wait_event e = true ∧ ∀ qid rc bl, e ≠ Event.removeFromQueue qid rc bl := by
  intro e he
  rcases hcr : env.client_remove with msg | b
  · simp [client_fallback, hcr] at he
    subst he
    exact ⟨rfl, by intro qid rc bl h; exact Event.noConfusion h⟩
  cases b
  · simp [client_fallback, hcr] at he
    subst he
    exact ⟨rfl, by intro qid rc bl h; exact Event.noConfusion h⟩
  · by_cases hbl : is_blocklist_action cfg.action
    · cases hh : env.history.isEmpty
      · rcases hf : env.history.find? (fun item => item.eventType == some "grabbed") with _ | g
        · simp [client_fallback, hcr, hbl, hh, hf] at he
          rcases he with rfl | rfl
          exacts [⟨rfl, by intro qid rc bl h; exact Event.noConfusion h⟩,
                  ⟨rfl, by intro qid rc bl h; exact Event.noConfusion h⟩]
        · simp [client_fallback, hcr, hbl, hh, hf] at he
          rcases he with rfl | rfl | rfl
          exacts [⟨rfl, by intro qid rc bl h; exact Event.noConfusion h⟩,
                  ⟨rfl, by intro qid rc bl h; exact Event.noConfusion h⟩,
                  ⟨rfl, by intro qid rc bl h; exact Event.noConfusion h⟩]
      · simp [client_fallback, hcr, hbl, hh] at he
        rcases he with rfl | rfl
        exacts [⟨rfl, by intro qid rc bl h; exact Event.noConfusion h⟩,
                ⟨rfl, by intro qid rc bl h; exact Event.noConfusion h⟩]
    · simp [client_fallback, hcr, hbl] at he
      subst he
      exact ⟨rfl, by intro qid rc bl h; exact Event.noConfusion h⟩

theorem client_fallback_has_clientRemove (cfg : Config) (env : Env) (d : String)
    (bf : List String) :
    Event.clientRemove d true ∈ (client_fallback cfg env d bf).2 := by
  rcases hcr : env.client_remove with msg | b
  · simp [client_fallback, hcr]
  cases b
  · simp [client_fallback, hcr]
  · by_cases hbl : is_blocklist_action cfg.action <;> simp [client_fallback, hcr, hbl]

theorem handle_blocked_kinds (cfg : Config) (env : Env) (d : String)
    (queue_id : Option Int) (bf : List String) :
    ∀ e ∈ (handle_blocked cfg env d queue_id bf).2,
      post_wait_event e = true ∧
      ∀ qid rc bl, e = Event.removeFromQueue qid rc bl → queue_id = some qid := by
  intro e he
  rcases queue_id with _ | q
  · have h := client_fallback_kinds cfg env d bf e (by simpa [handle_blocked] using he)
    exact ⟨h.1, fun qid rc bl he2 => absurd he2 (h.2 qid rc bl)⟩
  · cases hq : (q != 0)
    · have h := client_fallback_kinds cfg env d bf e (by simpa [handle_blocked, hq] using he)
      exact ⟨h.1, fun qid rc bl he2 => absurd he2 (h.2 qid rc bl)⟩
    · cases hs : (remove_from_queue env.sonarr_delete env.sonarr_blocklist_records q true
        (is_blocklist_action cfg.action)).1
      · simp [handle_blocked, hq, hs] at he
        rcases he with rfl | hmem
        · exact ⟨rfl, by intro qid rc bl he2; cases he2; rfl⟩
        · have h := client_fallback_kinds cfg env d bf e hmem
          exact ⟨h.1, fun qid rc bl he2 => absurd he2 (h.2 qid rc bl)⟩
      · simp [handle_blocked, hq, hs] at he
        subst he
        exact ⟨rfl, by intro qid rc bl he2; cases he2; rfl⟩

theorem handle_manifest_kinds (cfg : Config) (env : Env) (d : String)
    (queue_id : Option Int) (td : TorrentData) :
    ∀ e ∈ (handle_manifest cfg env d queue_id td).2,
      post_wait_event e = true ∧
      ∀ qid rc bl, e = Event.removeFromQueue qid rc bl → queue_id = some qid := by
  intro e he
  unfold handle_manifest at he
  by_cases hE : (check_files (normalize_blocked_extensions cfg.blocked_extensions) td.files).isEmpty
  · simp [hE] at he
  · simp only [hE, Bool.false_eq_true, if_false] at he
    exact handle_blocked_kinds cfg env d queue_id _ e he

theorem process_trace_master (cfg : Config) (env : Env) (payload : Payload)
    (hid : payload.downloadId ≠ "") :
    ∃ rest, (process_grab_event cfg env payload).2 =
        Event.getQueue :: ((wait_for_torrent payload.downloadId env.manifest).2 ++ rest) ∧
      ∀ e ∈ rest, post_wait_event e = true ∧
        ∀ qid rc bl, e = Event.removeFromQueue qid rc bl →
          get_queue_id env.queue payload.downloadId = some qid := by
  have hid2 : (payload.downloadId == "") = false := beq_eq_false_iff_ne.mpr hid
  rcases hw : wait_for_torrent payload.downloadId env.manifest with ⟨tdr, wevs⟩
  rcases tdr with f | td
  · exact ⟨[], by simp [process_grab_event, process_grab_event_inner, hid2, hw], by simp⟩
  rcases td with _ | t
  case ok.none =>
    exact ⟨[], by simp [process_grab_event, process_grab_event_inner, hid2, hw], by simp⟩
  case ok.some =>
    refine ⟨(handle_manifest cfg env payload.downloadId
        (get_queue_id env.queue payload.downloadId) t).2, ?_, ?_⟩
    · simp [process_grab_event, process_grab_event_inner, hid2, hw]
    · exact handle_manifest_kinds cfg env payload.downloadId _ t

/-! ## Claim theorems -/

/-- C4: for every manifest M and blocklist B the matcher output is a
subsequence of M in original order; the extension comparison is
case-insensitive (two paths with the same lowered splitext extension are
classified identically); the configured extensions "exe" and ".EXE"
normalize to the same blocked extension; and a path whose final segment has
no dot is never included in the output. -/
theorem C4_extension_matcher (B M : List String) (p q : String) :
    List.Sublist (check_files (normalize_blocked_extensions B) M) M ∧
    normalize_blocked_extensions ["exe"] = normalize_blocked_extensions [".EXE"] ∧
    (lower (splitext_ext p) = lower (splitext_ext q) →
      is_extension_blocked (normalize_blocked_extensions B) p =
        is_extension_blocked (normalize_blocked_extensions B) q) ∧
    (('.' : Char) ∉ after_last '/' p.data →
      p ∉ check_files (normalize_blocked_extensions B) M) := by
  refine ⟨List.filter_sublist M, by decide, ?_, fun h => not_blocked_of_no_dot_segment h⟩
  intro hcase
  unfold is_extension_blocked
  rw [hcase]

/-- Witness for C4 at concrete inputs: the case-insensitivity conjunct is
exercised at the pair "a.EXE" and "a.exe" (equal lowered extensions ".exe")
and the no-dot conjunct at the extension-less path "noext". -/
theorem C4_extension_matcher_witness :
    (lower (splitext_ext "a.EXE") = lower (splitext_ext "a.exe") ∧
     is_extension_blocked (normalize_blocked_extensions ["exe"]) "a.EXE" =
       is_extension_blocked (normalize_blocked_extensions ["exe"]) "a.exe") ∧
    (('.' : Char) ∉ after_last '/' "noext".data ∧
     "noext" ∉ check_files (normalize_blocked_extensions ["exe"]) ["noext", "show.exe"]) ∧
    List.Sublist (check_files (normalize_blocked_extensions ["exe"]) ["noext", "show.exe"])
      ["noext", "show.exe"] ∧
    normalize_blocked_extensions ["exe"] = normalize_blocked_extensions [".EXE"] :=
  ⟨⟨by decide,
    (C4_extension_matcher ["exe"] ["noext", "show.exe"] "a.EXE" "a.exe").2.2.1 (by decide)⟩,
   ⟨by decide,
    (C4_extension_matcher ["exe"] ["noext", "show.exe"] "noext" "noext").2.2.2 (by decide)⟩,
   (C4_extension_matcher ["exe"] ["noext", "show.exe"] "a.EXE" "a.exe").1,
   (C4_extension_matcher ["exe"] ["noext", "show.exe"] "a.EXE" "a.exe").2.1⟩

/-- C7: the queue-identifier lookup returns the id field of the first entry,
in snapshot order, whose download identifier matches the given identifier
case-insensitively, and returns none when no entry matches. -/
theorem C7_queue_lookup (queue_items : List QueueItem) (download_id : String) :
    (get_queue_id queue_items download_id = none ∧
      ∀ item ∈ queue_items, lower item.downloadId ≠ lower download_id) ∨
    (∃ before item after,
      queue_items = before ++ item :: after ∧
      (∀ x ∈ before, lower x.downloadId ≠ lower download_id) ∧
      lower item.downloadId = lower download_id ∧
      get_queue_id queue_items download_id = item.id) := by
  induction queue_items with
  | nil => left; exact ⟨rfl, by simp⟩
  | cons hd tl ih =>
    by_cases h : lower hd.downloadId = lower download_id
    · right
      exact ⟨[], hd, tl, rfl, by simp, h, by simp [get_queue_id, h]⟩
    · rcases ih with ⟨hnone, hall⟩ | ⟨b, it, a, heq, hb, hit, hres⟩
      · left
        refine ⟨by simp [get_queue_id, h, hnone], ?_⟩
        intro item hm
        rcases List.mem_cons.mp hm with rfl | hm2
        · exact h
        · exact hall _ hm2
      · right
        refine ⟨hd :: b, it, a, by rw [heq, List.cons_append], ?_, hit, ?_⟩
        · intro x hx
          rcases List.mem_cons.mp hx with rfl | hx2
          · exact h
          · exact hb _ hx2
        · simpa [get_queue_id, h] using hres

/-- C8: a hidden file, whose final path segment starts with a dot and holds
no other dot, is never matched, even when the segment itself (read as an
extension) is in the normalized blocked set: splitext treats the leading dot
as part of the file name, so the extension is empty. -/
theorem C8_hidden_file_never_matched (B M : List String) (p : String) (rest : List Char)
    (hseg : after_last '/' p.data = '.' :: rest)
    (hnod : ('.' : Char) ∉ rest)
    (happ : lower (String.mk ('.' :: rest)) ∈ normalize_blocked_extensions B) :
    p ∉ check_files (normalize_blocked_extensions B) M := by
  intro hmem
  unfold check_files at hmem
  rw [List.mem_filter] at hmem
  obtain ⟨-, hp⟩ := hmem
  have hext : splitext_ext p = "" := by
    unfold splitext_ext
    rw [if_neg]
    intro hc
    rw [hseg] at hc
    have hstep : List.dropWhile (fun x => x == '.') ('.' :: rest) =
        List.dropWhile (fun x => x == '.') rest := by
      simp [List.dropWhile]
    rw [hstep] at hc
    exact hnod ((List.dropWhile_sublist _).subset (List.elem_iff.mp hc))
  rw [hext] at hp
  exact empty_not_mem_normalize B (List.elem_iff.mp hp)

/-- Witness for C8 at the concrete hidden file "dir/.exe" with blocklist
["exe"]: its apparent extension ".exe" is blocked, yet it is not matched. -/
theorem C8_hidden_file_witness :
    (after_last '/' "dir/.exe".data = '.' :: "exe".data ∧
     ('.' : Char) ∉ "exe".data ∧
     lower (String.mk ('.' :: "exe".data)) ∈ normalize_blocked_extensions ["exe"]) ∧
    "dir/.exe" ∉ check_files (normalize_blocked_extensions ["exe"]) ["dir/.exe"] :=
  ⟨⟨by decide, by decide, by decide⟩,
   C8_hidden_file_never_matched ["exe"] ["dir/.exe"] "dir/.exe" "exe".data
     (by decide) (by decide) (by decide)⟩


/-- C3: with a non-empty download identifier, a backend whose every one of
the 3 bounded attempts is absent or an empty manifest yields exactly 3
manifest calls and the terminal warning "Could not retrieve torrent data"
(never an error), while a backend that serves a non-empty manifest on the
third attempt yields exactly 3 manifest calls and the pipeline continues
with that manifest. -/
theorem C3_manifest_wait_retries (cfg : Config) (envA envB : Env) (payload : Payload)
    (td : TorrentData)
    (hid : payload.downloadId ≠ "")
    (hA : ∀ i, i < 3 → envA.manifest i = Except.ok none ∨
      ∃ tde, envA.manifest i = Except.ok (some tde) ∧ tde.files = [])
    (hB0 : envB.manifest 0 = Except.ok none) (hB1 : envB.manifest 1 = Except.ok none)
    (hB2 : envB.manifest 2 = Except.ok (some td)) (hBf : td.files ≠ []) :
    count_getManifest (process_grab_event cfg envA payload).2 = 3 ∧
    (process_grab_event cfg envA payload).1.status = "warning" ∧
    (process_grab_event cfg envA payload).1.message = "Could not retrieve torrent data" ∧
    (process_grab_event cfg envA payload).1.status ≠ "error" ∧
    count_getManifest (process_grab_event cfg envB payload).2 = 3 ∧
    (process_grab_event cfg envB payload).1 =
      except_wrap (handle_manifest cfg envB payload.downloadId
        (get_queue_id envB.queue payload.downloadId) td).1 := by
  have hid2 : (payload.downloadId == "") = false := beq_eq_false_iff_ne.mpr hid
  have hwA := wait_no_usable payload.downloadId envA.manifest hA
  have hwB := wait_third_attempt payload.downloadId envB.manifest td hB0 hB1 hB2 hBf
  have hPA : process_grab_event cfg envA payload =
      ({ status := "warning", message := "Could not retrieve torrent data" },
       Event.getQueue :: backoff_trace payload.downloadId 3) := by
    simp [process_grab_event, process_grab_event_inner, hid2, hwA, except_wrap]
  have hPB2 : (process_grab_event cfg envB payload).2 =
      Event.getQueue :: (backoff_trace payload.downloadId 3 ++
        (handle_manifest cfg envB payload.downloadId
          (get_queue_id envB.queue payload.downloadId) td).2) := by
    simp [process_grab_event, process_grab_event_inner, hid2, hwB]
  have hPB1 : (process_grab_event cfg envB payload).1 =
      except_wrap (handle_manifest cfg envB payload.downloadId
        (get_queue_id envB.queue payload.downloadId) td).1 := by
    simp [process_grab_event, process_grab_event_inner, hid2, hwB]
  have hz : List.countP is_getManifest
      (handle_manifest cfg envB payload.downloadId
        (get_queue_id envB.queue payload.downloadId) td).2 = 0 := by
    rw [List.countP_eq_zero]
    intro e he
    have hpost := (handle_manifest_kinds cfg envB payload.downloadId
      (get_queue_id envB.queue payload.downloadId) td e he).1
    cases e <;> simp_all [post_wait_event, is_getManifest]
  refine ⟨?_, ?_, ?_, ?_, ?_, hPB1⟩
  · rw [hPA]
    simp [count_getManifest, backoff_trace, is_getManifest, List.countP_append, List.countP_cons]
  · rw [hPA]
  · rw [hPA]
  · rw [hPA]
    simp
  · rw [hPB2]
    simp [count_getManifest, backoff_trace, is_getManifest, List.countP_append,
      List.countP_cons, hz]

/-- Witness for C3: two concrete environments, one whose attempts are absent,
empty manifest, absent (never usable) and one that serves the manifest on
the third attempt. -/
theorem C3_manifest_wait_retries_witness :
    (sample_payload.downloadId ≠ "" ∧
     (∀ i, i < 3 → env_manifest_not_ready.manifest i = Except.ok none ∨
       ∃ tde, env_manifest_not_ready.manifest i = Except.ok (some tde) ∧ tde.files = []) ∧
     env_manifest_third.manifest 0 = Except.ok none ∧
     env_manifest_third.manifest 1 = Except.ok none ∧
     env_manifest_third.manifest 2 =
       Except.ok (some { files := ["show.S01E01.mkv", "show.S01E01.exe"] }) ∧
     (["show.S01E01.mkv", "show.S01E01.exe"] : List String) ≠ []) ∧
    (count_getManifest (process_grab_event blocklist_config env_manifest_not_ready sample_payload).2 = 3 ∧
     (process_grab_event blocklist_config env_manifest_not_ready sample_payload).1.status = "warning" ∧
     (process_grab_event blocklist_config env_manifest_not_ready sample_payload).1.message =
       "Could not retrieve torrent data" ∧
     (process_grab_event blocklist_config env_manifest_not_ready sample_payload).1.status ≠ "error" ∧
     count_getManifest (process_grab_event blocklist_config env_manifest_third sample_payload).2 = 3 ∧
     (process_grab_event blocklist_config env_manifest_third sample_payload).1 =
       except_wrap (handle_manifest blocklist_config env_manifest_third sample_payload.downloadId
         (get_queue_id env_manifest_third.queue sample_payload.downloadId)
         { files := ["show.S01E01.mkv", "show.S01E01.exe"] }).1) :=
  ⟨⟨by decide,
    fun i hi => by
      interval_cases i
      · exact Or.inl rfl
      · exact Or.inr ⟨{ files := [] }, rfl, rfl⟩
      · exact Or.inl rfl,
    rfl, rfl, rfl, by decide⟩,
   C3_manifest_wait_retries blocklist_config env_manifest_not_ready env_manifest_third
     sample_payload { files := ["show.S01E01.mkv", "show.S01E01.exe"] }
     (by decide)
     (fun i hi => by
       interval_cases i
       · exact Or.inl rfl
       · exact Or.inr ⟨{ files := [] }, rfl, rfl⟩
       · exact Or.inl rfl)
     rfl rfl rfl (by decide)⟩

/-- C5: with a non-empty download identifier the queue is queried exactly
once, as the very first external call, before any manifest attempt; and any
removeEntry call of the run carries exactly the queue identifier returned by
that single snapshot lookup. -/
theorem C5_queue_captured_once (cfg : Config) (env : Env) (payload : Payload)
    (hid : payload.downloadId ≠ "") :
    ∃ rest, (process_grab_event cfg env payload).2 = Event.getQueue :: rest ∧
      Event.getQueue ∉ rest ∧
      ∀ qid rc bl, Event.removeFromQueue qid rc bl ∈ (process_grab_event cfg env payload).2 →
        get_queue_id env.queue payload.downloadId = some qid := by
  obtain ⟨post, htr, hkinds⟩ := process_trace_master cfg env payload hid
  refine ⟨_, htr, ?_, ?_⟩
  · intro hmem
    rcases List.mem_append.mp hmem with hw | hr
    · rcases wait_loop_events payload.downloadId env.manifest (List.range 3) _ hw with ⟨s, h⟩ | h <;>
        exact Event.noConfusion h
    · have := (hkinds _ hr).1
      simp [post_wait_event] at this
  · intro qid rc bl hmem
    rw [htr] at hmem
    rcases List.mem_cons.mp hmem with h | h
    · exact Event.noConfusion h
    rcases List.mem_append.mp h with hw | hr
    · rcases wait_loop_events payload.downloadId env.manifest (List.range 3) _ hw with ⟨s, h2⟩ | h2 <;>
        exact Event.noConfusion h2
    · exact (hkinds _ hr).2 qid rc bl rfl

/-- Witness for C5 at the happy-path fixture run. -/
theorem C5_queue_captured_once_witness :
    sample_payload.downloadId ≠ "" ∧
    ∃ rest, (process_grab_event blocklist_config base_env sample_payload).2 =
        Event.getQueue :: rest ∧
      Event.getQueue ∉ rest ∧
      ∀ qid rc bl,
        Event.removeFromQueue qid rc bl ∈
          (process_grab_event blocklist_config base_env sample_payload).2 →
        get_queue_id base_env.queue sample_payload.downloadId = some qid :=
  ⟨by decide, C5_queue_captured_once blocklist_config base_env sample_payload (by decide)⟩

/-- C9: with a non-empty download identifier the trace is the queue query
followed by backoff_trace n for some 1 <= n <= 3 (each manifest call
directly preceded by its sleep of 2^(k+1) seconds, the first included) and a
tail holding no manifest call and no sleep. -/
theorem C9_sleep_before_every_attempt (cfg : Config) (env : Env) (payload : Payload)
    (hid : payload.downloadId ≠ "") :
    ∃ n rest, 1 ≤ n ∧ n ≤ 3 ∧
      (process_grab_event cfg env payload).2 =
        Event.getQueue :: (backoff_trace payload.downloadId n ++ rest) ∧
      (∀ d2, Event.getManifest d2 ∉ rest) ∧ (∀ s, Event.sleep s ∉ rest) := by
  obtain ⟨post, htr, hkinds⟩ := process_trace_master cfg env payload hid
  obtain ⟨n, h1, h3, hshape⟩ := wait_for_torrent_shape payload.downloadId env.manifest
  refine ⟨n, post, h1, h3, by rw [htr, hshape], ?_, ?_⟩
  · intro d2 hmem
    have := (hkinds _ hmem).1
    simp [post_wait_event] at this
  · intro s hmem
    have := (hkinds _ hmem).1
    simp [post_wait_event] at this

/-- Witness for C9 at the happy-path fixture run. -/
theorem C9_sleep_before_every_attempt_witness :
    sample_payload.downloadId ≠ "" ∧
    ∃ n rest, 1 ≤ n ∧ n ≤ 3 ∧
      (process_grab_event blocklist_config base_env sample_payload).2 =
        Event.getQueue :: (backoff_trace sample_payload.downloadId n ++ rest) ∧
      (∀ d2, Event.getManifest d2 ∉ rest) ∧ (∀ s, Event.sleep s ∉ rest) :=
  ⟨by decide, C9_sleep_before_every_attempt blocklist_config base_env sample_payload (by decide)⟩

/-- C6: whenever the inner pipeline body raises a fault, process_grab_event
still returns a well-formed result, with status error and the description of
the fault as its message; the exception does not propagate. -/
theorem C6_fault_boundary (cfg : Config) (env : Env) (payload : Payload) (e : String)
    (hfault : (process_grab_event_inner cfg env payload).1 = Except.error e) :
    (process_grab_event cfg env payload).1 = { status := "error", message := e } := by
  unfold process_grab_event
  rw [hfault]
  rfl

/-- Witness for C6: a transport fault on the first manifest call surfaces as
the terminal error result carrying its description. -/
theorem C6_fault_boundary_witness :
    (process_grab_event_inner blocklist_config env_fault sample_payload).1 =
      Except.error "connection refused" ∧
    (process_grab_event blocklist_config env_fault sample_payload).1 =
      { status := "error", message := "connection refused" } :=
  ⟨rfl, C6_fault_boundary blocklist_config env_fault sample_payload "connection refused" rfl⟩


theorem remove_from_queue_fst (delete_result : Except String Unit) (records : List Int)
    (queue_id : Int) (rc bl : Bool) :
    (remove_from_queue delete_result records queue_id rc bl).1 = except_ok delete_result := by
  cases delete_result <;> cases bl <;> rfl

/-- C10: remove_from_queue succeeds exactly when the HTTP DELETE completes
without fault, for any blocklist flag; when blocklisting was requested the
verification query runs but never changes the returned value, which is the
same for every blocklist snapshot; in particular the call reports success
with a completely empty blocklist, and a whole pipeline run returns the
identical result and trace for any two blocklist snapshots. -/
theorem C10_remove_success_independent (delete_result : Except String Unit)
    (records records2 : List Int) (queue_id : Int) (rc bl : Bool)
    (cfg : Config) (env : Env) (payload : Payload) :
    ((remove_from_queue delete_result records queue_id rc bl).1 = true ↔
      except_ok delete_result = true) ∧
    (remove_from_queue delete_result records queue_id rc bl).1 =
      (remove_from_queue delete_result records2 queue_id rc bl).1 ∧
    (except_ok delete_result = true →
      SonarrEvent.getBlocklist ∈ (remove_from_queue delete_result records queue_id rc true).2) ∧
    (remove_from_queue (Except.ok ()) [] queue_id rc true).1 = true ∧
    process_grab_event cfg { env with sonarr_blocklist_records := records } payload =
      process_grab_event cfg { env with sonarr_blocklist_records := records2 } payload := by
  refine ⟨by rw [remove_from_queue_fst], ?_, ?_, rfl, rfl⟩
  · rw [remove_from_queue_fst, remove_from_queue_fst]
  · intro hok
    rcases delete_result with msg | u
    · simp [except_ok] at hok
    · simp [remove_from_queue]

/-- Witness for C10: the success biconditional exercised at a failing DELETE
(both sides false) and at a successful one, the verification-query
membership discharged at the successful DELETE, and the whole-pipeline
independence at two distinct blocklist snapshots. -/
theorem C10_remove_success_independent_witness :
    (((remove_from_queue (Except.error "HTTP 500") [1, 2] 42 true true).1 = true ↔
       except_ok (Except.error "HTTP 500") = true) ∧
     (remove_from_queue (Except.error "HTTP 500") [1, 2] 42 true true).1 =
       (remove_from_queue (Except.error "HTTP 500") [] 42 true true).1) ∧
    ((remove_from_queue (Except.ok ()) [1, 2] 42 true true).1 = true ↔
      except_ok (Except.ok ()) = true) ∧
    (except_ok (Except.ok ()) = true ∧
     SonarrEvent.getBlocklist ∈ (remove_from_queue (Except.ok ()) [1, 2] 42 true true).2) ∧
    (remove_from_queue (Except.ok ()) [] 42 true true).1 = true ∧
    process_grab_event blocklist_config
        { base_env with sonarr_blocklist_records := [1, 2] } sample_payload =
      process_grab_event blocklist_config
        { base_env with sonarr_blocklist_records := [] } sample_payload :=
  ⟨⟨(C10_remove_success_independent (Except.error "HTTP 500") [1, 2] [] 42 true true
       blocklist_config base_env sample_payload).1,
    (C10_remove_success_independent (Except.error "HTTP 500") [1, 2] [] 42 true true
       blocklist_config base_env sample_payload).2.1⟩,
   (C10_remove_success_independent (Except.ok ()) [1, 2] [] 42 true true
      blocklist_config base_env sample_payload).1,
   ⟨rfl,
    (C10_remove_success_independent (Except.ok ()) [1, 2] [] 42 true true
       blocklist_config base_env sample_payload).2.2.1 rfl⟩,
   (C10_remove_success_independent (Except.ok ()) [1, 2] [] 42 true true
      blocklist_config base_env sample_payload).2.2.2.1,
   (C10_remove_success_independent (Except.ok ()) [1, 2] [] 42 true true
      blocklist_config base_env sample_payload).2.2.2.2⟩

/-- Counterexample to C1 as stated: in env_queue_fail a queue identifier is
captured (42), the match set is non-empty, and removeEntry reports failure,
yet the run terminates with status removed (the direct client fallback
succeeded), not with the error "failed to remove from queue". -/
theorem C1_counterexample :
    get_queue_id env_queue_fail.queue sample_payload.downloadId = some 42 ∧
    (remove_from_queue env_queue_fail.sonarr_delete env_queue_fail.sonarr_blocklist_records
      42 true (is_blocklist_action remove_config.action)).1 = false ∧
    (process_grab_event remove_config env_queue_fail sample_payload).1.status = "removed" ∧
    (process_grab_event remove_config env_queue_fail sample_payload).1.message ≠
      "failed to remove from queue" := by
  refine ⟨rfl, rfl, rfl, ?_⟩
  decide

/-- C1 amended: when a queue identifier was captured, the match set is
non-empty and removeEntry reports failure, the run does not terminate there;
it falls through to the direct download-client removal, whose outcome
becomes the terminal result. -/
theorem C1_queue_failure_falls_back (cfg : Config) (env : Env) (payload : Payload)
    (qid : Int) (td : TorrentData) (wait_evs : List Event)
    (hid : payload.downloadId ≠ "")
    (hq : get_queue_id env.queue payload.downloadId = some qid) (hq0 : qid ≠ 0)
    (hw : wait_for_torrent payload.downloadId env.manifest = (Except.ok (some td), wait_evs))
    (hbf : check_files (normalize_blocked_extensions cfg.blocked_extensions) td.files ≠ [])
    (hfail : (remove_from_queue env.sonarr_delete env.sonarr_blocklist_records qid true
      (is_blocklist_action cfg.action)).1 = false) :
    (process_grab_event cfg env payload).1 =
      except_wrap (client_fallback cfg env payload.downloadId
        (check_files (normalize_blocked_extensions cfg.blocked_extensions) td.files)).1 ∧
    Event.clientRemove payload.downloadId true ∈ (process_grab_event cfg env payload).2 := by
  have hid2 : (payload.downloadId == "") = false := beq_eq_false_iff_ne.mpr hid
  have hq0b : (qid != 0) = true := bne_iff_ne.mpr hq0
  have hbfE := isEmpty_false_of_ne_nil hbf
  constructor
  · simp [process_grab_event, process_grab_event_inner, hid2, hw, handle_manifest, hbfE,
      handle_blocked, hq, hq0b, hfail]
  · simp only [process_grab_event, process_grab_event_inner, hid2, Bool.false_eq_true,
      if_false, hw]
    simp [handle_manifest, hbfE, handle_blocked, hq, hq0b, hfail,
      client_fallback_has_clientRemove]

/-- Witness for the amended C1 at the env_queue_fail fixture. -/
theorem C1_queue_failure_falls_back_witness :
    (sample_payload.downloadId ≠ "" ∧
     get_queue_id env_queue_fail.queue sample_payload.downloadId = some 42 ∧
     (42 : Int) ≠ 0 ∧
     wait_for_torrent sample_payload.downloadId env_queue_fail.manifest =
       (Except.ok (some { files := ["show.S01E01.mkv", "show.S01E01.exe"] }),
        backoff_trace sample_payload.downloadId 1) ∧
     check_files (normalize_blocked_extensions remove_config.blocked_extensions)
       ["show.S01E01.mkv", "show.S01E01.exe"] ≠ [] ∧
     (remove_from_queue env_queue_fail.sonarr_delete env_queue_fail.sonarr_blocklist_records
       42 true (is_blocklist_action remove_config.action)).1 = false) ∧
    ((process_grab_event remove_config env_queue_fail sample_payload).1 =
       except_wrap (client_fallback remove_config env_queue_fail sample_payload.downloadId
         (check_files (normalize_blocked_extensions remove_config.blocked_extensions)
           ["show.S01E01.mkv", "show.S01E01.exe"])).1 ∧
     Event.clientRemove sample_payload.downloadId true ∈
       (process_grab_event remove_config env_queue_fail sample_payload).2) :=
  ⟨⟨by decide, rfl, by decide, rfl, by decide, rfl⟩,
   C1_queue_failure_falls_back remove_config env_queue_fail sample_payload 42
     { files := ["show.S01E01.mkv", "show.S01E01.exe"] }
     (backoff_trace sample_payload.downloadId 1)
     (by decide) rfl (by decide) rfl (by decide) rfl⟩

/-- Counterexample to C2 as stated: in env_fallback there is no matching
queue entry, the match set is non-empty, the direct client remove succeeds,
the blocklist policy is enabled and a grabbed history entry exists, yet the
result has blocklisted = false, because the blocklist-by-history call
reported failure. -/
theorem C2_counterexample :
    get_queue_id env_fallback.queue sample_payload.downloadId = none ∧
    is_blocklist_action blocklist_config.action = true ∧
    env_fallback.client_remove = Except.ok true ∧
    env_fallback.history.find? (fun item => item.eventType == some "grabbed") =
      some { eventType := some "grabbed", id := some 7 } ∧
    (process_grab_event blocklist_config env_fallback sample_payload).1.status = "removed" ∧
    (process_grab_event blocklist_config env_fallback sample_payload).1.blocklisted =
      some false :=
  ⟨rfl, rfl, rfl, rfl, rfl, rfl⟩

/-- C2 amended: under the stated fallback conditions and additionally a
blocklist-by-history call that reports success on the first grabbed history
entry, the terminal result is removed with blocklisted = true. -/
theorem C2_fallback_blocklisted (cfg : Config) (env : Env) (payload : Payload)
    (td : TorrentData) (wait_evs : List Event) (g : HistoryItem)
    (hid : payload.downloadId ≠ "")
    (hq : get_queue_id env.queue payload.downloadId = none)
    (hw : wait_for_torrent payload.downloadId env.manifest = (Except.ok (some td), wait_evs))
    (hbf : check_files (normalize_blocked_extensions cfg.blocked_extensions) td.files ≠ [])
    (hcr : env.client_remove = Except.ok true)
    (hbl : is_blocklist_action cfg.action = true)
    (hg : env.history.find? (fun item => item.eventType == some "grabbed") = some g)
    (hsucc : env.blocklist_by_history g.id = true) :
    (process_grab_event cfg env payload).1.status = "removed" ∧
    (process_grab_event cfg env payload).1.blocklisted = some true := by
  have hid2 : (payload.downloadId == "") = false := beq_eq_false_iff_ne.mpr hid
  have hbfE := isEmpty_false_of_ne_nil hbf
  have hhe := find_some_not_nil hg
  constructor <;>
    simp [process_grab_event, process_grab_event_inner, hid2, hw, handle_manifest, hbfE,
      handle_blocked, hq, client_fallback, hcr, hbl, hhe, hg, hsucc, except_wrap]

/-- Witness for the amended C2 at the env_fallback_ok fixture. -/
theorem C2_fallback_blocklisted_witness :
    (sample_payload.downloadId ≠ "" ∧
     get_queue_id env_fallback_ok.queue sample_payload.downloadId = none ∧
     wait_for_torrent sample_payload.downloadId env_fallback_ok.manifest =
       (Except.ok (some { files := ["show.S01E01.mkv", "show.S01E01.exe"] }),
        backoff_trace sample_payload.downloadId 1) ∧
     check_files (normalize_blocked_extensions blocklist_config.blocked_extensions)
       ["show.S01E01.mkv", "show.S01E01.exe"] ≠ [] ∧
     env_fallback_ok.client_remove = Except.ok true ∧
     is_blocklist_action blocklist_config.action = true ∧
     env_fallback_ok.history.find? (fun item => item.eventType == some "grabbed") =
       some { eventType := some "grabbed", id := some 7 } ∧
     env_fallback_ok.blocklist_by_history (some 7) = true) ∧
    ((process_grab_event blocklist_config env_fallback_ok sample_payload).1.status =
       "removed" ∧
     (process_grab_event blocklist_config env_fallback_ok sample_payload).1.blocklisted =
       some true) :=
  ⟨⟨by decide, rfl, rfl, by decide, rfl, rfl, rfl, rfl⟩,
   C2_fallback_blocklisted blocklist_config env_fallback_ok sample_payload
     { files := ["show.S01E01.mkv", "show.S01E01.exe"] }
     (backoff_trace sample_payload.downloadId 1)
     { eventType := some "grabbed", id := some 7 }
     (by decide) rfl rfl (by decide) rfl rfl rfl rfl⟩

end SonarrFilter
